import Mathlib

/-!
Shallow embedding of `scipy/sparse/linalg/dsolve/linsolve.py`: the dispatch
module for sparse direct solves (`spsolve`), LU factorization (`splu`),
pre-factorized solvers (`factorized`) and backend-preference state
(`use_solver` / `useUmfpack`).

The native kernels (`umfpack.linsolve` / `umfpack.numeric` / `umfpack.solve`
and `_superlu.gssv` / `_superlu.gstrf`) are external libraries not present in
this repository; they are modelled from the spec as opaque deterministic
kernels that compute the solution of `A x = b` from the mathematical content
of their inputs.  All policy code (format coercion, index sorting, dtype
upcasting, shape validation, warnings, dispatch) is translated directly from
the Python source.
-/

namespace Linsolve

/-- Sparse matrix storage formats relevant to the module.  `coo` and `lil`
stand for the formats that are neither CSC nor CSR. -/
inductive SpFormat : Type
  | csc
  | csr
  | coo
  | lil
deriving DecidableEq, Repr

/-- Numpy dtypes that matter to the module: the four floating-point dtype
characters `f d F D` plus integer dtypes that `asfptype` upcasts. -/
inductive Dtype : Type
  | int32
  | int64
  | float32
  | float64
  | complex64
  | complex128
deriving DecidableEq, Repr

/-- `A.asfptype()` dtype map: dtypes with char in `fdFD` are kept, integer
dtypes are upcast to the first floating-point type that can safely hold
them (`float64` for 32/64-bit integers). -/
def Dtype.asfp : Dtype → Dtype
  | .int32 => .float64
  | .int64 => .float64
  | d => d

/-- Dtype char in `fdFD` (a floating-point dtype). -/
def Dtype.isFloating : Dtype → Bool
  | .float32 => true
  | .float64 => true
  | .complex64 => true
  | .complex128 => true
  | _ => false

/-- Dtype char in `dD` (double precision real or complex), the only dtypes
the umfpack backend accepts. -/
def Dtype.isDouble : Dtype → Bool
  | .float64 => true
  | .complex128 => true
  | _ => false

/-- A sparse matrix as the module sees it: a storage format, a shape, a
dtype, whether its index arrays are sorted, and its mathematical content
(the dense logical entries, row-major).  Entries are carried exactly; the
dtype tag records the declared storage type. -/
structure SpMatrix : Type where
  fmt : SpFormat
  rows : Nat
  cols : Nat
  dtype : Dtype
  sorted : Bool
  content : List (List Int)
deriving DecidableEq, Repr

/-- `csc_matrix(A)`: format conversion to CSC.  It builds a fresh matrix
with the same shape, dtype and mathematical content. -/
def toCsc (A : SpMatrix) : SpMatrix :=
  { A with fmt := SpFormat.csc }

/-- `A.sort_indices()`: in-place sort of the index arrays.  The mathematical
content, shape and dtype are unchanged; the matrix becomes sorted. -/
def sortIndices (A : SpMatrix) : SpMatrix :=
  { A with sorted := true }

/-- `A.asfptype()`: upcast to a floating point format.  Returns the matrix
itself when the dtype char is already in `fdFD`, otherwise an upcast copy. -/
def asfptype (A : SpMatrix) : SpMatrix :=
  { A with dtype := A.dtype.asfp }

/-- A dense numpy array: a shape, a dtype and the flattened values. -/
structure NdArray : Type where
  shape : List Nat
  dtype : Dtype
  values : List Int
deriving DecidableEq, Repr

/-- `b.size`: the number of elements, the product of the shape. -/
def NdArray.size (b : NdArray) : Nat := b.shape.prod

/-- `b.ndim`: the number of dimensions. -/
def NdArray.ndim (b : NdArray) : Nat := b.shape.length

/-- `max(b.shape)`: maximum over the shape tuple. -/
def listMax (l : List Nat) : Nat := l.foldr max 0

/-- `b.squeeze()`: remove all axes of length one; values are unchanged. -/
def NdArray.squeeze (b : NdArray) : NdArray :=
  { b with shape := b.shape.filter (fun n => n != 1) }

/-- `asarray(b, dtype=...)`: cast to the given dtype.  In the exact model
the values are preserved; only the dtype tag changes. -/
def castTo (d : Dtype) (b : NdArray) : NdArray :=
  { b with dtype := d }

/-- `b.reshape(-1)`: flatten to one dimension. -/
def NdArray.reshapeFlat (b : NdArray) : NdArray :=
  { b with shape := [b.values.length] }

/-- `m.toarray()`: densify a sparse matrix into a 2-d array. -/
def toarray (m : SpMatrix) : NdArray :=
  { shape := [m.rows, m.cols], dtype := m.dtype, values := m.content.flatten }

/-- A right-hand side passed to `spsolve`: either a dense array or a sparse
matrix (the `isspmatrix(b)` branch densifies the latter). -/
inductive Rhs : Type
  | dense (a : NdArray)
  | sparse (m : SpMatrix)
deriving DecidableEq, Repr

/-- The distinct `ValueError` raise sites of the module. -/
inductive PyErr : Type
  | rhsNotVector
  | notSquare
  | sizeMismatch
  | notSquareFactor
  | needDouble
deriving DecidableEq, Repr

instance {ε α : Type} [DecidableEq ε] [DecidableEq α] : DecidableEq (Except ε α) := fun x y =>
  match x, y with
  | Except.error a, Except.error b =>
      if h : a = b then Decidable.isTrue (by rw [h]) else Decidable.isFalse (by simp [h])
  | Except.error _, Except.ok _ => Decidable.isFalse (by simp)
  | Except.ok _, Except.error _ => Decidable.isFalse (by simp)
  | Except.ok a, Except.ok b =>
      if h : a = b then Decidable.isTrue (by rw [h]) else Decidable.isFalse (by simp [h])

/-- The warnings the module can emit. -/
inductive WarnKind : Type
  | sparseEfficiency
  | deprecation
deriving DecidableEq, Repr

/-- The two native backends the module can delegate to. -/
inductive Backend : Type
  | umfpack
  | superlu
deriving DecidableEq, Repr

/-- Module-level state read by the dispatch functions: `isUmfpack` (whether
the umfpack module is importable and functional), `noScikit` (whether the
bundled copy was imported instead of scikits.umfpack), and the mutable
preference flag `useUmfpack`. -/
structure ModuleState : Type where
  isUmfpack : Bool
  noScikit : Bool
  useUmfpack : Bool
deriving DecidableEq, Repr

/-- `use_solver(**kwargs)`: if the keyword `useUmfpack` is present, set the
module-global `useUmfpack` to its value; nothing else in the module's state
is touched (the trailing `umfpack.configure(**kwargs)` call configures the
external umfpack module, not this module). -/
def use_solver (kwargs : List (String × Bool)) (st : ModuleState) : ModuleState :=
  match kwargs.lookup "useUmfpack" with
  | some v => { st with useUmfpack := v }
  | none => st

/-- Modelled from the spec: the opaque native kernels (umfpack's
`linsolve`/`numeric`+`solve` and SuperLU's `gssv`/`gstrf`+`solve`) are
interchangeable deterministic solvers of `A x = b`; their output is a
function of the mathematical content of `A` and the values of `b`, which
this structure records symbolically. -/
structure Solution : Type where
  mat : List (List Int)
  rhs : List Int
deriving DecidableEq, Repr

/-- Modelled from the spec: `umfpack.UmfpackContext(...).linsolve(UMFPACK_A,
A, b, autoTranspose=True)` — the umfpack one-shot solve kernel, absent from
this repository, returning the solution of `A x = b`. -/
def umfpackLinsolve (A : SpMatrix) (b : NdArray) : Solution :=
  { mat := A.content, rhs := b.values }

/-- Modelled from the spec: `_superlu.gssv(N, nnz, data, indices, indptr, b,
flag, options)[0]` — the SuperLU one-shot solve kernel, absent from this
repository, returning the solution of `A x = b` (the flag only tells the
kernel how to read the index arrays, so the result depends on the
mathematical matrix alone). -/
def superluGssv (A : SpMatrix) (b : NdArray) : Solution :=
  { mat := A.content, rhs := b.values }

/-- Modelled from the spec: the LU factors of `A` computed by
`_superlu.gstrf`, absent from this repository; they determine the solutions
of `A x = b`, so the factor object carries the mathematical content of `A`. -/
structure SuperLUFactor : Type where
  mat : List (List Int)
deriving DecidableEq, Repr

/-- Modelled from the spec: `_superlu.gstrf(N, nnz, data, indices, indptr,
...)` — the SuperLU factorization kernel. -/
def superluGstrf (A : SpMatrix) : SuperLUFactor :=
  { mat := A.content }

/-- Modelled from the spec: `lu.solve(b)` on a SuperLU factor object — a
triangular solve reusing the cached factors, no refactorization. -/
def SuperLUFactor.solve (f : SuperLUFactor) (b : NdArray) : Solution :=
  { mat := f.mat, rhs := b.values }

/-- Result of a call to `spsolve`: the returned solution or the raised
`ValueError`, the backend that was called (if any), the warnings emitted,
the caller-visible state of `A` after the call (in-place mutation), and the
normalized matrix that reached the shape checks and delegation (`none` when
the call aborted during rhs processing). -/
structure SpsolveResult : Type where
  outcome : Except PyErr Solution
  backendUsed : Option Backend
  warns : List WarnKind
  callerA : SpMatrix
  normA : Option SpMatrix
deriving DecidableEq, Repr

/-- The rhs-processing prefix of `spsolve`: densify a sparse `b`, and for a
multi-dimensional `b` either squeeze it (when `max(b.shape) == b.size`) or
raise `ValueError`.  This happens before `A` is looked at. -/
def processRhs (b0 : Rhs) : Except PyErr NdArray :=
  let b1 := match b0 with
    | Rhs.sparse m => toarray m
    | Rhs.dense a => a
  if b1.ndim > 1 then
    if listMax b1.shape = b1.size then Except.ok b1.squeeze
    else Except.error PyErr.rhsNotVector
  else Except.ok b1

/-- The part of `spsolve` after rhs processing: format coercion to CSC when
`A` is neither CSC nor CSR (with a `SparseEfficiencyWarning`), in-place
index sorting, floating-point upcast, the two shape checks, then dispatch
to umfpack (when `isUmfpack and useUmfpack`, with the double-precision
dtype check and deprecation warning) or to SuperLU's `gssv`. -/
def spsolveCore (st : ModuleState) (A0 : SpMatrix) (b : NdArray) : SpsolveResult :=
      let accepted := A0.fmt = SpFormat.csc ∨ A0.fmt = SpFormat.csr
      let A1 := if accepted then A0 else toCsc A0
      let warns1 := if accepted then ([] : List WarnKind)
                    else [WarnKind.sparseEfficiency]
      let A2 := sortIndices A1
      let callerA := if accepted then A2 else A0
      let A3 := asfptype A2
      if A3.rows ≠ A3.cols then
        { outcome := Except.error PyErr.notSquare, backendUsed := none,
          warns := warns1, callerA := callerA, normA := some A3 }
      else if A3.rows ≠ b.size then
        { outcome := Except.error PyErr.sizeMismatch, backendUsed := none,
          warns := warns1, callerA := callerA, normA := some A3 }
      else if st.isUmfpack && st.useUmfpack then
        let warns2 := warns1 ++ (if st.noScikit then [WarnKind.deprecation] else [])
        if ¬ A3.dtype.isDouble then
          { outcome := Except.error PyErr.needDouble, backendUsed := none,
            warns := warns2, callerA := callerA, normA := some A3 }
        else
          let bu := (castTo A3.dtype b).reshapeFlat
          { outcome := Except.ok (umfpackLinsolve A3 bu),
            backendUsed := some Backend.umfpack, warns := warns2,
            callerA := callerA, normA := some A3 }
      else
        let bs := castTo A3.dtype b
        { outcome := Except.ok (superluGssv A3 bs),
          backendUsed := some Backend.superlu, warns := warns1,
          callerA := callerA, normA := some A3 }

/-- `spsolve(A, b)`: solve the sparse linear system `A x = b`, translated
from the source: rhs processing (densify a sparse `b`, squeeze or reject a
multi-dimensional `b`) followed by `spsolveCore`. -/
def spsolve (st : ModuleState) (A0 : SpMatrix) (b0 : Rhs) : SpsolveResult :=
  match processRhs b0 with
  | Except.error e =>
      { outcome := Except.error e, backendUsed := none, warns := [],
        callerA := A0, normA := none }
  | Except.ok b => spsolveCore st A0 b

/-- Result of a call to `splu`. -/
structure SpluResult : Type where
  outcome : Except PyErr SuperLUFactor
  backendUsed : Option Backend
  warns : List WarnKind
  callerA : SpMatrix
  normA : SpMatrix
  factorCalls : Nat
deriving DecidableEq, Repr

/-- `splu(A)`: LU-factorize `A`, translated from the source: coercion to
CSC when `A` is not CSC (with a `SparseEfficiencyWarning`), in-place index
sorting, floating-point upcast, the squareness check, then a single call to
`_superlu.gstrf`.  The function reads no module-global backend state. -/
def splu (A0 : SpMatrix) : SpluResult :=
  let accepted := A0.fmt = SpFormat.csc
  let A1 := if accepted then A0 else toCsc A0
  let warns1 := if accepted then ([] : List WarnKind)
                else [WarnKind.sparseEfficiency]
  let A2 := sortIndices A1
  let callerA := if accepted then A2 else A0
  let A3 := asfptype A2
  if A3.rows ≠ A3.cols then
    { outcome := Except.error PyErr.notSquareFactor, backendUsed := none,
      warns := warns1, callerA := callerA, normA := A3, factorCalls := 0 }
  else
    { outcome := Except.ok (superluGstrf A3), backendUsed := some Backend.superlu,
      warns := warns1, callerA := callerA, normA := A3, factorCalls := 1 }

/-- The pre-factorized solver object returned by `factorized`: either an
umfpack context holding a numeric factorization of the captured matrix, or
the bound `solve` method of a SuperLU factor object. -/
inductive SolverClosure : Type
  | umf (A : SpMatrix)
  | slu (f : SuperLUFactor)
deriving DecidableEq, Repr

/-- Applying the returned solver to a right-hand side: `umf.solve(UMFPACK_A,
A, b, autoTranspose=True)` on the umfpack path, `lu.solve(b)` on the SuperLU
path.  Both reuse the cached factorization; neither performs a factor call. -/
def SolverClosure.apply : SolverClosure → NdArray → Solution
  | SolverClosure.umf A, b => { mat := A.content, rhs := b.values }
  | SolverClosure.slu f, b => f.solve b

/-- Result of a call to `factorized`: the solver closure or the raised
error, warnings, the caller-visible `A`, and the number of factorization
kernel calls made during `factorized` itself (`umf.numeric` or
`_superlu.gstrf`). -/
structure FactorizedResult : Type where
  outcome : Except PyErr SolverClosure
  warns : List WarnKind
  callerA : SpMatrix
  factorCalls : Nat
deriving DecidableEq, Repr

/-- `factorized(A)`: on the umfpack path (when `isUmfpack and useUmfpack`)
coerce to CSC, sort indices, upcast, check the double-precision dtype, run
`umf.numeric(A)` once and return a closure over the context; otherwise
return `splu(A).solve`, the bound solve method of the SuperLU factor. -/
def factorized (st : ModuleState) (A0 : SpMatrix) : FactorizedResult :=
  if st.isUmfpack && st.useUmfpack then
    let warns0 := if st.noScikit then [WarnKind.deprecation] else []
    let accepted := A0.fmt = SpFormat.csc
    let A1 := if accepted then A0 else toCsc A0
    let warns1 := warns0 ++ (if accepted then ([] : List WarnKind)
                             else [WarnKind.sparseEfficiency])
    let A2 := sortIndices A1
    let callerA := if accepted then A2 else A0
    let A3 := asfptype A2
    if ¬ A3.dtype.isDouble then
      { outcome := Except.error PyErr.needDouble, warns := warns1,
        callerA := callerA, factorCalls := 0 }
    else
      { outcome := Except.ok (SolverClosure.umf A3), warns := warns1,
        callerA := callerA, factorCalls := 1 }
  else
    let r := splu A0
    { outcome := Except.map SolverClosure.slu r.outcome, warns := r.warns,
      callerA := r.callerA, factorCalls := r.factorCalls }

/-- The backend a solver closure belongs to. -/
def SolverClosure.backend : SolverClosure → Backend
  | SolverClosure.umf _ => Backend.umfpack
  | SolverClosure.slu _ => Backend.superlu

theorem Dtype.asfp_isFloating (d : Dtype) : d.asfp.isFloating = true := by
  cases d <;> rfl

theorem spsolve_ok_eq (st : ModuleState) (A : SpMatrix) (b0 : Rhs) (bb : NdArray)
    (hb : processRhs b0 = Except.ok bb) :
    spsolve st A b0 = spsolveCore st A bb := by
  unfold spsolve
  rw [hb]

theorem spsolve_err_eq (st : ModuleState) (A : SpMatrix) (b0 : Rhs) (e : PyErr)
    (hb : processRhs b0 = Except.error e) :
    spsolve st A b0 = { outcome := Except.error e, backendUsed := none,
                        warns := [], callerA := A, normA := none } := by
  unfold spsolve
  rw [hb]

/-- C1: for every valid square system, `spsolve` delegates to the umfpack
backend exactly when `isUmfpack` and the module-global `useUmfpack` are both
true, and otherwise delegates to the SuperLU backend (`_superlu.gssv`);
the `Backend` type has no third constructor, so no third path exists. -/
theorem spsolve_dispatch (st : ModuleState) (A : SpMatrix) (b : Rhs) (s : Solution)
    (h : (spsolve st A b).outcome = Except.ok s) :
    (spsolve st A b).backendUsed =
      some (if st.isUmfpack && st.useUmfpack then Backend.umfpack
            else Backend.superlu) := by
  rcases hp : processRhs b with e | bb
  · rw [spsolve_err_eq st A b e hp] at h
    simp at h
  · rw [spsolve_ok_eq st A b bb hp] at h ⊢
    unfold spsolveCore at h ⊢
    dsimp only at h ⊢
    split_ifs at h ⊢ <;> simp_all

theorem spsolve_dispatch_witness :
    (spsolve ⟨true, false, true⟩ ⟨SpFormat.csc, 1, 1, Dtype.float64, true, [[2]]⟩
        (Rhs.dense ⟨[1], Dtype.float64, [4]⟩)).backendUsed =
      some (if (true : Bool) && true then Backend.umfpack else Backend.superlu) :=
  spsolve_dispatch ⟨true, false, true⟩ ⟨SpFormat.csc, 1, 1, Dtype.float64, true, [[2]]⟩
    (Rhs.dense ⟨[1], Dtype.float64, [4]⟩) ⟨[[2]], [4]⟩ (by decide)

/-- C7: `use_solver` leaves `isUmfpack` and `noScikit` unchanged, sets the
module-global `useUmfpack` to the value of the `useUmfpack` keyword when it
is present, and is the identity on the module state when it is absent (the
trailing `umfpack.configure` call touches only the external umfpack
module). -/
theorem use_solver_state (kwargs : List (String × Bool)) (st : ModuleState) :
    ((use_solver kwargs st).isUmfpack = st.isUmfpack) ∧
    ((use_solver kwargs st).noScikit = st.noScikit) ∧
    (∀ v, kwargs.lookup "useUmfpack" = some v →
       use_solver kwargs st = { st with useUmfpack := v }) ∧
    (kwargs.lookup "useUmfpack" = none → use_solver kwargs st = st) := by
  unfold use_solver
  rcases hl : kwargs.lookup "useUmfpack" with _ | v <;> simp_all

theorem use_solver_state_witness :
    use_solver [("useUmfpack", false)] ⟨true, true, true⟩ = ⟨true, true, false⟩ :=
  (use_solver_state [("useUmfpack", false)] ⟨true, true, true⟩).2.2.1 false rfl

/-- C2 counterexample: `splu` does not dispatch by the configured backend
preference — it reads no module state at all.  On a square double-precision
CSC matrix (exactly the inputs the umfpack backend prefers) `splu` still
calls the SuperLU factorization kernel. -/
theorem splu_ignores_preference_cex :
    (splu ⟨SpFormat.csc, 1, 1, Dtype.float64, true, [[2]]⟩).backendUsed =
      some Backend.superlu ∧
    Backend.superlu ≠ Backend.umfpack := by
  constructor
  · rfl
  · intro h
    cases h

/-- C2 amended: `splu` always factorizes with SuperLU (`_superlu.gstrf`),
never with umfpack, regardless of the configured preference; the
LU-factorization entry point that dispatches by preference is `factorized`,
which prefers umfpack when selected and available and falls back to
`splu`'s SuperLU factorization otherwise. -/
theorem splu_superlu_only (st : ModuleState) (A : SpMatrix) (c : SolverClosure)
    (hc : (factorized st A).outcome = Except.ok c) :
    ((splu A).backendUsed ≠ some Backend.umfpack) ∧
    (c.backend = if st.isUmfpack && st.useUmfpack then Backend.umfpack
                 else Backend.superlu) := by
  constructor
  · unfold splu
    dsimp only
    split_ifs <;> simp
  · unfold factorized at hc
    dsimp only at hc
    rcases ho : (splu A).outcome with e | f <;> rw [ho] at hc <;>
      split_ifs at hc <;> simp [Except.map] at hc <;> subst hc <;>
      simp_all [SolverClosure.backend] <;> split_ifs <;> simp_all

theorem splu_superlu_only_witness :
    ((splu ⟨SpFormat.csc, 1, 1, Dtype.float64, true, [[2]]⟩).backendUsed ≠
        some Backend.umfpack) ∧
    ((SolverClosure.slu ⟨[[2]]⟩).backend = Backend.superlu) := by
  have h := splu_superlu_only ⟨false, false, false⟩
      ⟨SpFormat.csc, 1, 1, Dtype.float64, true, [[2]]⟩
      (SolverClosure.slu ⟨[[2]]⟩) (by decide)
  exact ⟨h.1, h.2⟩

/-- C3 counterexample: the observable result of `spsolve` is not
independent of `useUmfpack`.  On a square CSC single-precision system on
which `spsolve` succeeds under the SuperLU backend, flipping `useUmfpack`
to true makes the same call raise `ValueError` (the umfpack path rejects
any non-double dtype), so the outcome depends on the backend selection. -/
theorem spsolve_flag_dependent_cex :
    (spsolve ⟨true, false, false⟩ ⟨SpFormat.csc, 1, 1, Dtype.float32, true, [[2]]⟩
        (Rhs.dense ⟨[1], Dtype.float64, [4]⟩)).outcome =
      Except.ok ⟨[[2]], [4]⟩ ∧
    (spsolve ⟨true, false, true⟩ ⟨SpFormat.csc, 1, 1, Dtype.float32, true, [[2]]⟩
        (Rhs.dense ⟨[1], Dtype.float64, [4]⟩)).outcome =
      Except.error PyErr.needDouble := by
  decide

/-- C3 amended: for matrices whose upcast dtype is double precision (`d` or
`D`) — the only dtypes the umfpack path accepts — the outcome of `spsolve`
is independent of the backend-preference state, with the two native
kernels modelled from the spec as interchangeable exact solvers. -/
theorem spsolve_flag_independent_double (st1 st2 : ModuleState) (A : SpMatrix)
    (b : Rhs) (hd : A.dtype.asfp.isDouble = true) :
    (spsolve st1 A b).outcome = (spsolve st2 A b).outcome := by
  rcases hp : processRhs b with e | bb
  · rw [spsolve_err_eq st1 A b e hp, spsolve_err_eq st2 A b e hp]
  · rw [spsolve_ok_eq st1 A b bb hp, spsolve_ok_eq st2 A b bb hp]
    unfold spsolveCore
    dsimp only
    split_ifs <;>
      simp_all [asfptype, sortIndices, toCsc, umfpackLinsolve, superluGssv,
        castTo, NdArray.reshapeFlat]

theorem spsolve_flag_independent_double_witness :
    (spsolve ⟨true, false, true⟩ ⟨SpFormat.csc, 1, 1, Dtype.float64, true, [[2]]⟩
        (Rhs.dense ⟨[1], Dtype.float64, [4]⟩)).outcome =
    (spsolve ⟨true, false, false⟩ ⟨SpFormat.csc, 1, 1, Dtype.float64, true, [[2]]⟩
        (Rhs.dense ⟨[1], Dtype.float64, [4]⟩)).outcome :=
  spsolve_flag_independent_double ⟨true, false, true⟩ ⟨true, false, false⟩
    ⟨SpFormat.csc, 1, 1, Dtype.float64, true, [[2]]⟩
    (Rhs.dense ⟨[1], Dtype.float64, [4]⟩) (by decide)

/-- C4: before delegating, `spsolve` converts any matrix that is neither
CSC nor CSR to CSC with a `SparseEfficiencyWarning` (a CSC or CSR matrix
keeps its format), sorts the indices, and upcasts the dtype to a
floating-point type, preserving the mathematical content; `splu` performs
the same normalization with CSC as the only accepted format. -/
theorem normalization_before_delegation (st : ModuleState) (A : SpMatrix)
    (b0 : Rhs) (bb : NdArray) (hb : processRhs b0 = Except.ok bb) :
    (∀ N, (spsolve st A b0).normA = some N →
       N.sorted = true ∧ N.dtype = A.dtype.asfp ∧ N.dtype.isFloating = true ∧
       N.content = A.content ∧ N.rows = A.rows ∧ N.cols = A.cols ∧
       ((A.fmt = SpFormat.csc ∨ A.fmt = SpFormat.csr) → N.fmt = A.fmt) ∧
       (¬ (A.fmt = SpFormat.csc ∨ A.fmt = SpFormat.csr) →
          N.fmt = SpFormat.csc ∧
          WarnKind.sparseEfficiency ∈ (spsolve st A b0).warns)) ∧
    ((spsolve st A b0).normA ≠ none) ∧
    ((splu A).normA.sorted = true ∧ (splu A).normA.dtype = A.dtype.asfp ∧
     (splu A).normA.dtype.isFloating = true ∧
     (splu A).normA.fmt = SpFormat.csc ∧
     (splu A).normA.content = A.content ∧
     (A.fmt ≠ SpFormat.csc →
        WarnKind.sparseEfficiency ∈ (splu A).warns)) := by
  rw [spsolve_ok_eq st A b0 bb hb]
  refine ⟨?_, ?_, ?_⟩
  · unfold spsolveCore
    dsimp only
    intro N hN
    split_ifs at hN ⊢ <;>
      simp only [Option.some.injEq] at hN <;> subst hN <;>
      simp_all [asfptype, sortIndices, toCsc, Dtype.asfp_isFloating]
  · unfold spsolveCore
    dsimp only
    split_ifs <;> simp
  · unfold splu
    dsimp only
    split_ifs <;>
      simp_all [asfptype, sortIndices, toCsc, Dtype.asfp_isFloating]

theorem normalization_before_delegation_witness :
    ((spsolve ⟨true, false, false⟩ ⟨SpFormat.coo, 1, 1, Dtype.int32, false, [[2]]⟩
        (Rhs.dense ⟨[1], Dtype.float64, [4]⟩)).normA ≠ none) := by
  have h := normalization_before_delegation ⟨true, false, false⟩
      ⟨SpFormat.coo, 1, 1, Dtype.int32, false, [[2]]⟩
      (Rhs.dense ⟨[1], Dtype.float64, [4]⟩) ⟨[1], Dtype.float64, [4]⟩ (by decide)
  exact h.2.1

/-- C5: the shape-validation stage raises exactly as described: `spsolve`
raises the not-square `ValueError` iff `M ≠ N`, and the size-mismatch
`ValueError` iff `M = N` but `M` differs from the flattened rhs size;
`splu` raises its not-square `ValueError` iff `M ≠ N`; in every such case
no backend is called. -/
theorem shape_validation (st : ModuleState) (A : SpMatrix) (b0 : Rhs)
    (bb : NdArray) (hb : processRhs b0 = Except.ok bb) :
    ((spsolve st A b0).outcome = Except.error PyErr.notSquare ↔ A.rows ≠ A.cols) ∧
    ((spsolve st A b0).outcome = Except.error PyErr.sizeMismatch ↔
       (A.rows = A.cols ∧ A.rows ≠ bb.size)) ∧
    ((splu A).outcome = Except.error PyErr.notSquareFactor ↔ A.rows ≠ A.cols) ∧
    ((A.rows ≠ A.cols ∨ A.rows ≠ bb.size) → (spsolve st A b0).backendUsed = none) ∧
    (A.rows ≠ A.cols → (splu A).backendUsed = none) := by
  rw [spsolve_ok_eq st A b0 bb hb]
  unfold spsolveCore splu
  dsimp only
  split_ifs <;> simp_all [asfptype, sortIndices, toCsc]

theorem shape_validation_witness :
    ((spsolve ⟨true, false, false⟩ ⟨SpFormat.csc, 2, 1, Dtype.float64, true, [[2], [3]]⟩
        (Rhs.dense ⟨[1], Dtype.float64, [4]⟩)).outcome =
      Except.error PyErr.notSquare ↔ (2 : Nat) ≠ 1) := by
  have h := shape_validation ⟨true, false, false⟩
      ⟨SpFormat.csc, 2, 1, Dtype.float64, true, [[2], [3]]⟩
      (Rhs.dense ⟨[1], Dtype.float64, [4]⟩) ⟨[1], Dtype.float64, [4]⟩ (by decide)
  exact h.1

/-- C6: `factorized(A)` runs the factorization kernel (`umf.numeric` or
`_superlu.gstrf`) exactly once, at the time `factorized` is called; the
returned solver reuses that cached factorization (`SolverClosure.apply`
contains no factor-call site), and applying it to any conforming rhs `b`
yields the same solution `spsolve(A, b)` computes under the same backend
selection, with the native kernels modelled from the spec. -/
theorem factorized_once_agrees (st : ModuleState) (A : SpMatrix) (b : NdArray)
    (c : SolverClosure) (hb : b.shape = [b.values.length])
    (hsq : A.rows = A.cols) (hsz : A.rows = b.values.length)
    (hc : (factorized st A).outcome = Except.ok c) :
    (factorized st A).factorCalls = 1 ∧
    (spsolve st A (Rhs.dense b)).outcome = Except.ok (c.apply b) := by
  have hp : processRhs (Rhs.dense b) = Except.ok b := by
    unfold processRhs
    simp [NdArray.ndim, hb]
  rw [spsolve_ok_eq st A (Rhs.dense b) b hp]
  unfold factorized at hc ⊢
  unfold spsolveCore splu at *
  dsimp only at hc ⊢
  split_ifs at hc ⊢ <;>
    simp [Except.map, Except.ok.injEq] at hc <;> (try subst hc) <;>
    simp_all [SolverClosure.apply, SuperLUFactor.solve, umfpackLinsolve,
      superluGssv, superluGstrf, asfptype, sortIndices, toCsc, castTo,
      NdArray.reshapeFlat, NdArray.size]

theorem factorized_once_agrees_witness :
    (factorized ⟨true, false, true⟩
        ⟨SpFormat.csc, 1, 1, Dtype.float64, true, [[2]]⟩).factorCalls = 1 ∧
    (spsolve ⟨true, false, true⟩ ⟨SpFormat.csc, 1, 1, Dtype.float64, true, [[2]]⟩
        (Rhs.dense ⟨[1], Dtype.float64, [4]⟩)).outcome =
      Except.ok ((SolverClosure.umf
          ⟨SpFormat.csc, 1, 1, Dtype.float64, true, [[2]]⟩).apply
        ⟨[1], Dtype.float64, [4]⟩) :=
  factorized_once_agrees ⟨true, false, true⟩
    ⟨SpFormat.csc, 1, 1, Dtype.float64, true, [[2]]⟩
    ⟨[1], Dtype.float64, [4]⟩
    (SolverClosure.umf ⟨SpFormat.csc, 1, 1, Dtype.float64, true, [[2]]⟩)
    rfl rfl rfl (by decide)

/-- C8 counterexample: an accepted multi-dimensional rhs is not always
squeezed to a one-dimensional vector.  For `b` of shape `(1, 1)` the
acceptance test `max(b.shape) == b.size` passes (`1 == 1`), but
`b.squeeze()` removes every unit axis and produces a zero-dimensional
array, not a one-dimensional one. -/
theorem rhs_squeeze_not_1d_cex :
    processRhs (Rhs.dense ⟨[1, 1], Dtype.float64, [5]⟩) =
      Except.ok ⟨[], Dtype.float64, [5]⟩ ∧
    (NdArray.ndim ⟨[], Dtype.float64, [5]⟩ = 0) := by
  decide

/-- C8 amended: a multi-dimensional rhs is accepted by `spsolve` exactly
when `max(b.shape) == b.size`, in which case it is squeezed (every unit
axis removed — one-dimensional when exactly one axis exceeds one, but
zero-dimensional for a single-element `b`, and unchanged when all axes are
zero); otherwise `spsolve` raises `ValueError` before any validation of
`A` (no warning, no backend call, `A` untouched).  A sparse `b` is first
densified via `toarray`. -/
theorem rhs_processing (st : ModuleState) (A : SpMatrix) (b : NdArray)
    (m : SpMatrix) (hmulti : b.ndim > 1) :
    (processRhs (Rhs.dense b) =
       if listMax b.shape = b.size then Except.ok b.squeeze
       else Except.error PyErr.rhsNotVector) ∧
    (listMax b.shape ≠ b.size →
       spsolve st A (Rhs.dense b) =
         { outcome := Except.error PyErr.rhsNotVector, backendUsed := none,
           warns := [], callerA := A, normA := none }) ∧
    processRhs (Rhs.sparse m) = processRhs (Rhs.dense (toarray m)) := by
  refine ⟨?_, ?_, rfl⟩
  · unfold processRhs
    dsimp only
    rw [if_pos hmulti]
  · intro hne
    have he : processRhs (Rhs.dense b) = Except.error PyErr.rhsNotVector := by
      unfold processRhs
      dsimp only
      rw [if_pos hmulti, if_neg hne]
    exact spsolve_err_eq st A (Rhs.dense b) PyErr.rhsNotVector he

theorem rhs_processing_witness :
    processRhs (Rhs.dense ⟨[2, 3], Dtype.float64, [1, 2, 3, 4, 5, 6]⟩) =
      (if listMax [2, 3] = NdArray.size ⟨[2, 3], Dtype.float64, [1, 2, 3, 4, 5, 6]⟩
       then Except.ok (NdArray.squeeze ⟨[2, 3], Dtype.float64, [1, 2, 3, 4, 5, 6]⟩)
       else Except.error PyErr.rhsNotVector) :=
  (rhs_processing ⟨true, false, true⟩
      ⟨SpFormat.csc, 1, 1, Dtype.float64, true, [[2]]⟩
      ⟨[2, 3], Dtype.float64, [1, 2, 3, 4, 5, 6]⟩
      ⟨SpFormat.csc, 1, 1, Dtype.float64, true, [[2]]⟩ (by decide)).1

/-- C9: when the caller's matrix already has the accepted format (CSC or
CSR for `spsolve`, CSC for `splu` and `factorized`), the call mutates the
caller's object in place via `A.sort_indices()`: after the call the
caller-visible matrix is `sortIndices A`, which differs from `A` whenever
`A`'s indices were unsorted. -/
theorem inplace_sort_mutation (st : ModuleState) (A : SpMatrix) (b0 : Rhs)
    (bb : NdArray) (hb : processRhs b0 = Except.ok bb)
    (hacc : A.fmt = SpFormat.csc ∨ A.fmt = SpFormat.csr) :
    ((spsolve st A b0).callerA = sortIndices A) ∧
    (A.fmt = SpFormat.csc →
       (splu A).callerA = sortIndices A ∧
       (factorized st A).callerA = sortIndices A) ∧
    (A.sorted = false → sortIndices A ≠ A) := by
  refine ⟨?_, fun hcsc => ⟨?_, ?_⟩, fun hs heq => ?_⟩
  · rw [spsolve_ok_eq st A b0 bb hb]
    unfold spsolveCore
    dsimp only
    split_ifs <;> simp_all
  · unfold splu
    dsimp only
    split_ifs <;> simp_all
  · unfold factorized splu
    dsimp only
    split_ifs <;> simp_all
  · have h2 := congrArg SpMatrix.sorted heq
    simp only [sortIndices] at h2
    rw [hs] at h2
    cases h2

theorem inplace_sort_mutation_witness :
    ((spsolve ⟨true, false, true⟩ ⟨SpFormat.csc, 1, 1, Dtype.float64, false, [[2]]⟩
        (Rhs.dense ⟨[1], Dtype.float64, [4]⟩)).callerA =
      sortIndices ⟨SpFormat.csc, 1, 1, Dtype.float64, false, [[2]]⟩) ∧
    (sortIndices ⟨SpFormat.csc, 1, 1, Dtype.float64, false, [[2]]⟩ ≠
      ⟨SpFormat.csc, 1, 1, Dtype.float64, false, [[2]]⟩) := by
  have h := inplace_sort_mutation ⟨true, false, true⟩
      ⟨SpFormat.csc, 1, 1, Dtype.float64, false, [[2]]⟩
      (Rhs.dense ⟨[1], Dtype.float64, [4]⟩) ⟨[1], Dtype.float64, [4]⟩
      (by decide) (Or.inl rfl)
  exact ⟨h.1, h.2.2 rfl⟩

/-- C10: with the umfpack backend selected (`isUmfpack` and `useUmfpack`
both true), `spsolve` and `factorized` raise `ValueError` exactly for
matrices whose upcast dtype is not double precision (`d`/`D`); with the
SuperLU fallback selected, neither function imposes a dtype restriction
(both succeed on any dtype once the shapes pass). -/
theorem umfpack_dtype_restriction (st : ModuleState) (A : SpMatrix) (b0 : Rhs)
    (bb : NdArray) (hb : processRhs b0 = Except.ok bb)
    (hsq : A.rows = A.cols) (hsz : A.rows = bb.size) :
    ((st.isUmfpack && st.useUmfpack) = true →
       (((spsolve st A b0).outcome = Except.error PyErr.needDouble ↔
           A.dtype.asfp.isDouble = false) ∧
        ((factorized st A).outcome = Except.error PyErr.needDouble ↔
           A.dtype.asfp.isDouble = false))) ∧
    ((st.isUmfpack && st.useUmfpack) = false →
       ((spsolve st A b0).outcome.isOk = true ∧
        (factorized st A).outcome.isOk = true)) := by
  rw [spsolve_ok_eq st A b0 bb hb]
  unfold spsolveCore factorized splu
  dsimp only
  split_ifs <;>
    simp_all [Except.map, Except.isOk, Except.toBool, asfptype, sortIndices,
      toCsc]

theorem umfpack_dtype_restriction_witness :
    ((true && true) = true →
       (((spsolve ⟨true, false, true⟩
             ⟨SpFormat.csc, 1, 1, Dtype.float32, true, [[2]]⟩
             (Rhs.dense ⟨[1], Dtype.float64, [4]⟩)).outcome =
            Except.error PyErr.needDouble ↔
          Dtype.float32.asfp.isDouble = false) ∧
        ((factorized ⟨true, false, true⟩
             ⟨SpFormat.csc, 1, 1, Dtype.float32, true, [[2]]⟩).outcome =
            Except.error PyErr.needDouble ↔
          Dtype.float32.asfp.isDouble = false))) ∧
    ((true && true) = false →
       ((spsolve ⟨true, false, true⟩
            ⟨SpFormat.csc, 1, 1, Dtype.float32, true, [[2]]⟩
            (Rhs.dense ⟨[1], Dtype.float64, [4]⟩)).outcome.isOk = true ∧
        (factorized ⟨true, false, true⟩
            ⟨SpFormat.csc, 1, 1, Dtype.float32, true, [[2]]⟩).outcome.isOk = true)) :=
  umfpack_dtype_restriction ⟨true, false, true⟩
    ⟨SpFormat.csc, 1, 1, Dtype.float32, true, [[2]]⟩
    (Rhs.dense ⟨[1], Dtype.float64, [4]⟩) ⟨[1], Dtype.float64, [4]⟩
    (by decide) rfl rfl

end Linsolve
